import Mathlib

/-!
Formal model of `src/app.py`, a Flask expense tracker.

The persisted store is the file `expenses.csv`: modelled as
`Option (List RawRow)`, where `none` means the file does not exist and each
`RawRow` is one comma-separated line with the three fields
`name, amount, category` (a missing or empty field is the empty string, which
pandas reads as NaN).  Monetary values are modelled as `Rat`: the Python code
computes with floats, but every claim is about exact decimal arithmetic on
parsed amounts.  The literal byte content of the rendered PNG is opaque; the
chart is modelled by the data it draws, the list of `(category, total)` bars.

`get_expense_data` reads the CSV with
`pd.read_csv(..., header=None, names=['name','amount','category'])`, coerces
the amount column with `pd.to_numeric(errors='coerce')` (unparseable -> NaN)
and then calls `dropna()`, which drops every row that has a NaN in ANY of the
three columns.  `pd.read_csv` on an existing but empty file raises
`EmptyDataError`; that is modelled as an `Except.error`.
-/

namespace ExpenseApp

/-- Value of a list of decimal digit characters, most significant first. -/
def digitsVal (cs : List Char) : Nat :=
  cs.foldl (fun n c => 10 * n + (c.toNat - 48)) 0

/-- All characters are decimal digits. -/
def allDigits (cs : List Char) : Bool :=
  cs.all (fun c => c.isDigit)

/-- Parse an unsigned decimal numeral `digits [ '.' digits ]` (one of the two
digit groups may be empty, as Python accepts `"5."` and `".5"`). -/
def parseBody (cs : List Char) : Option Rat :=
  let intPart := cs.takeWhile (fun c => c != '.')
  match cs.dropWhile (fun c => c != '.') with
  | [] =>
      if !intPart.isEmpty && allDigits intPart then some (digitsVal intPart) else none
  | _ :: frac =>
      if (!intPart.isEmpty || !frac.isEmpty) && allDigits intPart && allDigits frac then
        some ((digitsVal intPart : Rat) + (digitsVal frac : Rat) / (10 ^ frac.length))
      else none

/-- Model of Python `float(s)` / `pd.to_numeric(s, errors='coerce')` on the
common decimal grammar: optional sign, then digits with an optional fraction
part.  (Exponents, `inf`/`nan` spellings, underscores and surrounding
whitespace accepted by Python are outside the model; no claim depends on
them.)  `none` models a `ValueError` / a coerced NaN. -/
def parseAmount (s : String) : Option Rat :=
  match s.toList with
  | '-' :: rest => (parseBody rest).map (fun q => -q)
  | '+' :: rest => parseBody rest
  | cs => parseBody cs

/-- One line of `expenses.csv`: the raw string fields in the fixed column
order `name, amount, category`.  A field absent from the line is the empty
string (pandas reads both as NaN). -/
structure RawRow where
  name : String
  amount : String
  category : String
deriving Repr, DecidableEq

/-- One row of the pandas DataFrame after
`pd.to_numeric(df['amount'], errors='coerce')`: a `none` field is a NaN. -/
structure Row where
  name : Option String
  amount : Option Rat
  category : Option String
deriving Repr, DecidableEq

/-- Reading one CSV line into the DataFrame: an empty string field is NaN,
and the amount column is numerically coerced (unparseable -> NaN). -/
def toRow (r : RawRow) : Row where
  name := if r.name = "" then none else some r.name
  amount := parseAmount r.amount
  category := if r.category = "" then none else some r.category

/-- The predicate of `expenses_df.dropna()`: keep a row iff no field is NaN. -/
def rowKeep (r : Row) : Bool :=
  r.name.isSome && r.amount.isSome && r.category.isSome

/-- `dropna()` applied to the freshly read DataFrame. -/
def dropnaAll (rows : List RawRow) : List Row :=
  (rows.map toRow).filter rowKeep

/-- Amount of a kept row (its `amount` is `some` whenever the row survived
a dropna that includes the amount column). -/
def amountOf (r : Row) : Rat :=
  r.amount.getD 0

/-- Category of a kept row. -/
def catOf (r : Row) : String :=
  r.category.getD ""

/-- `df.groupby('category')['amount'].sum()`: one `(category, total)` pair per
distinct category of the given rows.  (pandas returns the groups keyed by
category; the claims never depend on the key order, only the chart sorts.) -/
def groupTotals (valid : List Row) : List (String × Rat) :=
  ((valid.map catOf).dedup).map
    (fun c => (c, ((valid.filter (fun r => catOf r == c)).map amountOf).sum))

/-- `BUDGET = 2000`, the fixed budget constant. -/
def BUDGET : Rat := 2000

/-- The tuple returned by `get_expense_data`. -/
structure Snapshot where
  expenses_list : List Row
  category_totals : List (String × Rat)
  total_spent : Rat
  remaining_budget : Rat
  daily_budget : Rat
  total_expenses : Nat
deriving Repr, DecidableEq

/-- The zeroed snapshot `[], {}, 0, BUDGET, 0, 0` returned when
`expenses.csv` does not exist. -/
def zeroSnapshot : Snapshot where
  expenses_list := []
  category_totals := []
  total_spent := 0
  remaining_budget := BUDGET
  daily_budget := 0
  total_expenses := 0

/-- The statistics block of `get_expense_data` on a successfully read
DataFrame.  `daysInMonth` is `calendar.monthrange(now.year, now.month)[1]`
and `nowDay` is `now.day`. -/
def aggregate (daysInMonth nowDay : Nat) (rows : List RawRow) : Snapshot :=
  let valid := dropnaAll rows
  let total_spent := (valid.map amountOf).sum
  let remaining_budget := BUDGET - total_spent
  let total_expenses := valid.length
  let remaining_days : Nat := max 1 (daysInMonth - nowDay)
  let daily_budget := if remaining_budget > 0 then remaining_budget / (remaining_days : Rat) else 0
  { expenses_list := valid
    category_totals := groupTotals valid
    total_spent := total_spent
    remaining_budget := remaining_budget
    daily_budget := daily_budget
    total_expenses := total_expenses }

/-- `get_expense_data()`: absent file -> zeroed snapshot; existing but empty
file -> `pd.read_csv` raises `EmptyDataError` (the route handlers let it
escape or turn it into a 500); otherwise the computed statistics. -/
def get_expense_data (daysInMonth nowDay : Nat) :
    Option (List RawRow) → Except String Snapshot
  | none => .ok zeroSnapshot
  | some [] => .error "EmptyDataError"
  | some rows => .ok (aggregate daysInMonth nowDay rows)

/-- Result of the `/generate_chart` route: a 404 "not found" JSON error, a 500
generic error, or the rendered chart, modelled by its bar data (one bar per
group, in drawing order). -/
inductive ChartResult where
  | notFound : String → ChartResult
  | failure : String → ChartResult
  | chart : List (String × Rat) → ChartResult
deriving Repr, DecidableEq

/-- The predicate of `df.dropna(subset=["amount", "category"])` in
`generate_chart`: the `name` column is NOT consulted. -/
def chartKeep (r : Row) : Bool :=
  r.amount.isSome && r.category.isSome

/-- Insert one bar into a list sorted descending by total. -/
def insertDesc (p : String × Rat) : List (String × Rat) → List (String × Rat)
  | [] => [p]
  | q :: qs => if q.2 ≤ p.2 then p :: q :: qs else q :: insertDesc p qs

/-- `.sort_values(ascending=False)` on the grouped totals: some descending
rearrangement (pandas uses quicksort; only order and multiset matter). -/
def sortDesc : List (String × Rat) → List (String × Rat)
  | [] => []
  | p :: ps => insertDesc p (sortDesc ps)

/-- `generate_chart()`: 404 if the file is absent or no valid row remains,
500 if `pd.read_csv` raises (empty existing file), else the bar chart of the
per-category totals sorted descending.  The base64 PNG encoding is opaque;
the chart is represented by the bars it draws. -/
def generate_chart : Option (List RawRow) → ChartResult
  | none => .notFound "No expenses found"
  | some [] => .failure "EmptyDataError"
  | some rows =>
      let valid := (rows.map toRow).filter chartKeep
      if valid.isEmpty then .notFound "No valid expenses found"
      else .chart (sortDesc (groupTotals valid))

/-- `add_expense()` on form fields `name, amount, category`: `float(amount)`
raising `ValueError` is caught, nothing is written and an error is flashed
(`false`); otherwise the file is created if absent and one line
`name,amount,category` is appended (`true`).  The code writes
`str(float(amount))`; the model keeps the submitted string, whose parsed
value is the same. -/
def add_expense (store : Option (List RawRow)) (name amount category : String) :
    Option (List RawRow) × Bool :=
  match parseAmount amount with
  | none => (store, false)
  | some _ => (some (store.getD [] ++ [⟨name, amount, category⟩]), true)

/-- `clear_all()`: `os.remove` when the file exists (success flash, `true`),
warning flash otherwise (`false`). -/
def clear_all (store : Option (List RawRow)) : Option (List RawRow) × Bool :=
  match store with
  | some _ => (none, true)
  | none => (none, false)

/-- One snapshot read as a state transition: reading `expenses.csv` does not
modify it, so the store component is returned unchanged. -/
def read_snapshot (daysInMonth nowDay : Nat) (store : Option (List RawRow)) :
    Option (List RawRow) × Except String Snapshot :=
  (store, get_expense_data daysInMonth nowDay store)

/-! ### Spec-side formulas

Independent restatements, in terms of the raw CSV lines only, of the
quantities the specification talks about.  They are compared with the
model of the code above. -/

/-- Spec-side: the sum of the amounts over exactly those records whose amount
field parses as a number (the record set claim C1 states `total_spent` to
equal). -/
def specSumParsed (rows : List RawRow) : Rat :=
  ((rows.filter (fun r => (parseAmount r.amount).isSome)).map
    (fun r => (parseAmount r.amount).getD 0)).sum

/-- Spec-side: the count of records whose amount field parses as a number. -/
def specCountParsed (rows : List RawRow) : Nat :=
  (rows.filter (fun r => (parseAmount r.amount).isSome)).length

/-- The rows the Aggregator actually keeps: name present, amount parses and
category present (pandas `dropna()` over all three columns). -/
def specKeepAgg (r : RawRow) : Bool :=
  !(r.name == "") && (parseAmount r.amount).isSome && !(r.category == "")

/-- Sum of parsed amounts over the rows the Aggregator keeps. -/
def specSumAgg (rows : List RawRow) : Rat :=
  ((rows.filter specKeepAgg).map (fun r => (parseAmount r.amount).getD 0)).sum

/-- Count of the rows the Aggregator keeps. -/
def specCountAgg (rows : List RawRow) : Nat :=
  (rows.filter specKeepAgg).length

/-- The rows the Chart Renderer keeps: amount parses and category present
(`dropna(subset=["amount", "category"])`; the name column is ignored). -/
def specKeepChart (r : RawRow) : Bool :=
  (parseAmount r.amount).isSome && !(r.category == "")

/-- Sum of parsed amounts over the rows the Chart Renderer keeps. -/
def specSumChart (rows : List RawRow) : Rat :=
  ((rows.filter specKeepChart).map (fun r => (parseAmount r.amount).getD 0)).sum

/-- The distinct categories among the rows the Chart Renderer keeps. -/
def specCatsChart (rows : List RawRow) : List String :=
  ((rows.filter specKeepChart).map RawRow.category).dedup

/-! ### Bridging lemmas between the DataFrame model and the spec-side
formulas -/

lemma amountOf_toRow (r : RawRow) : amountOf (toRow r) = (parseAmount r.amount).getD 0 := rfl

lemma rowKeep_toRow (r : RawRow) : rowKeep (toRow r) = specKeepAgg r := by
  unfold rowKeep toRow specKeepAgg
  by_cases h1 : r.name = "" <;> by_cases h2 : r.category = "" <;>
    have h1' : (r.name == "") = decide (r.name = "") := rfl <;>
    have h2' : (r.category == "") = decide (r.category = "") := rfl <;>
    simp [h1, h2, h1', h2']

lemma chartKeep_toRow (r : RawRow) : chartKeep (toRow r) = specKeepChart r := by
  unfold chartKeep toRow specKeepChart
  by_cases h2 : r.category = "" <;>
    have h2' : (r.category == "") = decide (r.category = "") := rfl <;>
    simp [h2, h2']

lemma catOf_toRow (r : RawRow) (h : specKeepChart r = true) :
    catOf (toRow r) = r.category := by
  unfold specKeepChart at h
  have h2 : ¬r.category = "" := by
    intro hc
    simp [hc] at h
  simp [catOf, toRow, h2]

lemma dropnaAll_eq (rows : List RawRow) :
    dropnaAll rows = (rows.filter specKeepAgg).map toRow := by
  unfold dropnaAll
  rw [List.filter_map]
  congr 1
  exact List.filter_congr (fun r _ => rowKeep_toRow r)

lemma chart_valid_eq (rows : List RawRow) :
    (rows.map toRow).filter chartKeep = (rows.filter specKeepChart).map toRow := by
  rw [List.filter_map]
  congr 1
  exact List.filter_congr (fun r _ => chartKeep_toRow r)

/-! ### Helper lemmas -/

/-- A successful read of an existing store yields exactly the computed
statistics (an existing but empty file raises instead). -/
lemma get_some_ok {daysInMonth nowDay : Nat} {rows : List RawRow} {snap : Snapshot}
    (h : get_expense_data daysInMonth nowDay (some rows) = Except.ok snap) :
    snap = aggregate daysInMonth nowDay rows := by
  cases rows with
  | nil => simp [get_expense_data] at h
  | cons r rs =>
      simp only [get_expense_data, Except.ok.injEq] at h
      exact h.symm

/-- Splitting a mapped sum along a Bool predicate. -/
lemma sum_map_filter_split {α : Type} (p : α → Bool) (v : α → Rat) :
    ∀ l : List α,
      ((l.filter p).map v).sum + ((l.filter (fun x => !p x)).map v).sum = (l.map v).sum
  | [] => by simp
  | a :: l => by
      have ih := sum_map_filter_split p v l
      cases h : p a with
      | true =>
          rw [List.filter_cons, List.filter_cons, if_pos h, if_neg (by simp [h]),
            List.map_cons, List.sum_cons, add_assoc, ih]
          simp
      | false =>
          rw [List.filter_cons, List.filter_cons, if_neg (by simp [h]), if_pos (by simp [h]),
            List.map_cons, List.sum_cons, add_left_comm, ih]
          simp

/-- Summing per-category filtered totals over a duplicate-free list of
categories that covers the rows gives back the total sum. -/
lemma sum_over_cats :
    ∀ (cats : List String) (l : List Row),
      (∀ r ∈ l, catOf r ∈ cats) → cats.Nodup →
      (cats.map (fun c => ((l.filter (fun r => catOf r == c)).map amountOf).sum)).sum
        = (l.map amountOf).sum
  | [], l, hmem, _ => by
      have : l = [] := by
        cases l with
        | nil => rfl
        | cons r rs => exact absurd (hmem r (by simp)) (by simp)
      simp [this]
  | c :: cs, l, hmem, hnd => by
      have hc : c ∉ cs := (List.nodup_cons.mp hnd).1
      have hnd' : cs.Nodup := (List.nodup_cons.mp hnd).2
      set l₂ := l.filter (fun r => !(catOf r == c)) with hl₂
      have hmem₂ : ∀ r ∈ l₂, catOf r ∈ cs := by
        intro r hr
        have hne : (catOf r == c) = false := by
          have := List.of_mem_filter hr
          simpa using this
        have hin : catOf r ∈ c :: cs := hmem r (List.mem_of_mem_filter hr)
        cases List.mem_cons.mp hin with
        | inl h => exact absurd h (by simpa using hne)
        | inr h => exact h
      have ih := sum_over_cats cs l₂ hmem₂ hnd'
      have hfilter : ∀ c' ∈ cs,
          l.filter (fun r => catOf r == c') = l₂.filter (fun r => catOf r == c') := by
        intro c' hc'
        have hcc : c' ≠ c := fun h => hc (h ▸ hc')
        rw [hl₂, List.filter_filter]
        refine List.filter_congr ?_
        intro r _
        by_cases h : catOf r = c'
        · simp [h, hcc]
        · simp [h]
      have hstep : ∀ c' ∈ cs,
          ((l.filter (fun r => catOf r == c')).map amountOf).sum
            = ((l₂.filter (fun r => catOf r == c')).map amountOf).sum := by
        intro c' hc'
        rw [hfilter c' hc']
      calc (((c :: cs).map
            (fun c => ((l.filter (fun r => catOf r == c)).map amountOf).sum)).sum)
          = ((l.filter (fun r => catOf r == c)).map amountOf).sum
              + ((cs.map (fun c' => ((l.filter (fun r => catOf r == c')).map amountOf).sum)).sum) := by
            simp
        _ = ((l.filter (fun r => catOf r == c)).map amountOf).sum
              + ((cs.map (fun c' => ((l₂.filter (fun r => catOf r == c')).map amountOf).sum)).sum) := by
            rw [List.map_congr_left hstep]
        _ = ((l.filter (fun r => catOf r == c)).map amountOf).sum + (l₂.map amountOf).sum := by
            rw [ih]
        _ = (l.map amountOf).sum := by
            rw [hl₂]
            exact sum_map_filter_split (fun r => catOf r == c) amountOf l

/-- The grouped per-category totals sum back to the total of the rows. -/
lemma groupTotals_sum (valid : List Row) :
    ((groupTotals valid).map Prod.snd).sum = (valid.map amountOf).sum := by
  unfold groupTotals
  rw [List.map_map]
  have : (Prod.snd ∘ fun c => (c, ((valid.filter (fun r => catOf r == c)).map amountOf).sum))
      = fun c => ((valid.filter (fun r => catOf r == c)).map amountOf).sum := rfl
  rw [this]
  exact sum_over_cats ((valid.map catOf).dedup) valid
    (fun r hr => List.mem_dedup.mpr (List.mem_map_of_mem catOf hr))
    (List.nodup_dedup _)

/-- One bar per distinct category. -/
lemma groupTotals_length (valid : List Row) :
    (groupTotals valid).length = ((valid.map catOf).dedup).length := by
  simp [groupTotals]

/-! ### Sorting lemmas -/

/-- Descending order on bars: each bar's total dominates every later one. -/
def BarsSortedDesc (bars : List (String × Rat)) : Prop :=
  bars.Pairwise (fun a b => b.2 ≤ a.2)

lemma mem_insertDesc {p q : String × Rat} :
    ∀ {l : List (String × Rat)}, q ∈ insertDesc p l ↔ q = p ∨ q ∈ l
  | [] => by simp [insertDesc]
  | a :: l => by
      unfold insertDesc
      by_cases h : a.2 ≤ p.2
      · simp [h]
      · simp only [if_neg h, List.mem_cons, mem_insertDesc]
        tauto

lemma length_insertDesc (p : String × Rat) :
    ∀ l : List (String × Rat), (insertDesc p l).length = l.length + 1
  | [] => rfl
  | a :: l => by
      unfold insertDesc
      by_cases h : a.2 ≤ p.2
      · simp [h]
      · simp [h, length_insertDesc p l]

lemma length_sortDesc : ∀ l : List (String × Rat), (sortDesc l).length = l.length
  | [] => rfl
  | p :: l => by
      unfold sortDesc
      rw [length_insertDesc, length_sortDesc l]
      simp

lemma sum_insertDesc (p : String × Rat) :
    ∀ l : List (String × Rat),
      ((insertDesc p l).map Prod.snd).sum = p.2 + (l.map Prod.snd).sum
  | [] => by simp [insertDesc]
  | a :: l => by
      unfold insertDesc
      by_cases h : a.2 ≤ p.2
      · simp [h]
      · simp only [if_neg h, List.map_cons, List.sum_cons, sum_insertDesc p l]
        ring

lemma sum_sortDesc : ∀ l : List (String × Rat),
    ((sortDesc l).map Prod.snd).sum = (l.map Prod.snd).sum
  | [] => rfl
  | p :: l => by
      unfold sortDesc
      rw [sum_insertDesc, sum_sortDesc l]
      simp

lemma sorted_insertDesc (p : String × Rat) :
    ∀ {l : List (String × Rat)}, BarsSortedDesc l → BarsSortedDesc (insertDesc p l)
  | [], _ => by simp [BarsSortedDesc, insertDesc]
  | a :: l, h => by
      unfold insertDesc
      rcases List.pairwise_cons.mp h with ⟨ha, hl⟩
      by_cases hap : a.2 ≤ p.2
      · rw [if_pos hap]
        refine List.pairwise_cons.mpr ⟨?_, h⟩
        intro b hb
        rcases List.mem_cons.mp hb with hb | hb
        · exact hb ▸ hap
        · exact le_trans (ha b hb) hap
      · rw [if_neg hap]
        refine List.pairwise_cons.mpr ⟨?_, sorted_insertDesc p hl⟩
        intro b hb
        rcases mem_insertDesc.mp hb with hb | hb
        · exact hb ▸ le_of_lt (lt_of_not_le hap)
        · exact ha b hb

lemma sorted_sortDesc : ∀ l : List (String × Rat), BarsSortedDesc (sortDesc l)
  | [] => List.Pairwise.nil
  | p :: l => sorted_insertDesc p (sorted_sortDesc l)

/-- What the Aggregator's totals really range over: the rows kept by
`dropna()` over all three columns. -/
lemma aggregate_spec (daysInMonth nowDay : Nat) (rows : List RawRow) :
    (aggregate daysInMonth nowDay rows).total_spent = specSumAgg rows
  ∧ (aggregate daysInMonth nowDay rows).total_expenses = specCountAgg rows := by
  constructor
  · show ((dropnaAll rows).map amountOf).sum = specSumAgg rows
    rw [dropnaAll_eq, List.map_map]
    rfl
  · show (dropnaAll rows).length = specCountAgg rows
    rw [dropnaAll_eq, List.length_map]
    rfl

/-- The amounts of the rows the chart keeps, pushed to the raw CSV lines. -/
lemma chart_sum_spec (rows : List RawRow) :
    ((((rows.map toRow).filter chartKeep).map amountOf)).sum = specSumChart rows := by
  rw [chart_valid_eq, List.map_map]
  rfl

/-- The categories of the rows the chart keeps, pushed to the raw CSV lines. -/
lemma chart_cats_eq (rows : List RawRow) :
    ((rows.map toRow).filter chartKeep).map catOf
      = (rows.filter specKeepChart).map RawRow.category := by
  rw [chart_valid_eq, List.map_map]
  refine List.map_congr_left ?_
  intro r hr
  exact catOf_toRow r (List.of_mem_filter hr)

/-! ### Concrete stores used by witnesses and counterexamples -/

/-- The spec's worked scenario: lines `Coffee,4.50,Food` and
`Bus,2.00,Transport`. -/
def demoRows : List RawRow :=
  [⟨"Coffee", "4.50", "Food"⟩, ⟨"Bus", "2.00", "Transport"⟩]

/-- A line `,5,Food`: empty name field (read as NaN), parseable amount. -/
def c1Rows : List RawRow := [⟨"", "5", "Food"⟩]

/-- The same shape of store, used to exhibit the Aggregator/Chart divergence:
a line `,5,Food`. -/
def divergeRows : List RawRow := [⟨"", "5", "Food"⟩]

/-- A store whose budget is exceeded: line `X,3000,Misc`. -/
def overRows : List RawRow := [⟨"X", "3000", "Misc"⟩]

/-- A store with one row whose amount does not parse: line `A,abc,Food`. -/
def badAmountRows : List RawRow := [⟨"A", "abc", "Food"⟩]

/-! ### Claim theorems -/

/-- Claim C6: a submission whose amount string does not parse as a float is
rejected as a validation failure before any write: no record is persisted and
the store, including its existence status, is exactly as before. -/
theorem c6_invalid_amount_rejected (store : Option (List RawRow))
    (name amount category : String) (h : parseAmount amount = none) :
    add_expense store name amount category = (store, false) := by
  simp [add_expense, h]

/-- Witness for C6 at the spec's concrete input: amount `"abc"` on a store
holding the two demo records. -/
theorem c6_witness :
    parseAmount "abc" = none
  ∧ add_expense (some demoRows) "Lunch" "abc" "Food" = (some demoRows, false) := by
  have h : parseAmount "abc" = none := by
    simp [parseAmount, parseBody, allDigits]
  exact ⟨h, c6_invalid_amount_rejected (some demoRows) "Lunch" "abc" "Food" h⟩

/-- Claim C7: when the store is absent the Aggregator returns the zeroed
snapshot: `total_spent = 0`, `total_expenses = 0`, empty category mapping,
`remaining_budget` equal to the full fixed budget (2000), `daily_budget = 0`. -/
theorem c7_absent_store (daysInMonth nowDay : Nat) :
    get_expense_data daysInMonth nowDay none = Except.ok zeroSnapshot
  ∧ zeroSnapshot.total_spent = 0
  ∧ zeroSnapshot.total_expenses = 0
  ∧ zeroSnapshot.category_totals = []
  ∧ zeroSnapshot.remaining_budget = BUDGET
  ∧ BUDGET = 2000
  ∧ zeroSnapshot.daily_budget = 0 :=
  ⟨rfl, rfl, rfl, rfl, rfl, rfl, rfl⟩

/-- Claim C8: deleting an existing store removes every record (the store is
absent afterwards), and a snapshot read performed after the deletion returns
`total_expenses = 0`. -/
theorem c8_clear_then_zero (rows : List RawRow) (daysInMonth nowDay : Nat) :
    clear_all (some rows) = (none, true)
  ∧ get_expense_data daysInMonth nowDay (clear_all (some rows)).1 = Except.ok zeroSnapshot
  ∧ zeroSnapshot.total_expenses = 0 :=
  ⟨rfl, rfl, rfl⟩

/-- Claim C9: computing the snapshot twice on an unmodified store yields
identical results (each read leaves the store unchanged, and the second read
returns the same value — hence the same `total_spent`, `remaining_budget`,
`daily_budget`, `total_expenses` and category totals). -/
theorem c9_snapshot_idempotent (daysInMonth nowDay : Nat)
    (store : Option (List RawRow)) :
    (read_snapshot daysInMonth nowDay (read_snapshot daysInMonth nowDay store).1).2
      = (read_snapshot daysInMonth nowDay store).2
  ∧ (read_snapshot daysInMonth nowDay store).1 = store :=
  ⟨rfl, rfl⟩

/-- Claim C1 counterexample: for the store holding the single line `,5,Food`
(empty name field, amount `5` parses), the claim says `total_spent` should be
the sum over the amount-parsing records, `5`, and `total_expenses` their
count, `1`; the code's `dropna()` also drops the row for its missing name, so
the Aggregator returns `0` and `0`. -/
theorem c1_counterexample :
    get_expense_data 30 15 (some c1Rows) = Except.ok (aggregate 30 15 c1Rows)
  ∧ (aggregate 30 15 c1Rows).total_spent = 0
  ∧ specSumParsed c1Rows = 5
  ∧ (aggregate 30 15 c1Rows).total_spent ≠ specSumParsed c1Rows
  ∧ (aggregate 30 15 c1Rows).total_expenses = 0
  ∧ specCountParsed c1Rows = 1
  ∧ (aggregate 30 15 c1Rows).total_expenses ≠ specCountParsed c1Rows := by
  have h1 : (aggregate 30 15 c1Rows).total_spent = 0 := by
    simp [c1Rows, aggregate, dropnaAll, rowKeep, toRow, amountOf, parseAmount, parseBody,
      digitsVal, allDigits]
  have h2 : specSumParsed c1Rows = 5 := by
    simp [c1Rows, specSumParsed, parseAmount, parseBody, digitsVal, allDigits]
  have h3 : (aggregate 30 15 c1Rows).total_expenses = 0 := by
    simp [c1Rows, aggregate, dropnaAll, rowKeep, toRow, parseAmount, parseBody,
      digitsVal, allDigits]
  have h4 : specCountParsed c1Rows = 1 := by
    simp [c1Rows, specCountParsed, parseAmount, parseBody, digitsVal, allDigits]
  refine ⟨rfl, h1, h2, ?_, h3, h4, ?_⟩
  · rw [h1, h2]
    norm_num
  · rw [h3, h4]
    norm_num

/-- Claim C1 (amended): for every record set read from the store,
`total_spent` equals the sum of the amounts over exactly those records whose
amount parses AND whose name and category fields are present, and
`total_expenses` equals the count of those records; records failing any of
these conditions are excluded from both. -/
theorem c1_totals (daysInMonth nowDay : Nat) (rows : List RawRow) (snap : Snapshot)
    (h : get_expense_data daysInMonth nowDay (some rows) = Except.ok snap) :
    snap.total_spent = specSumAgg rows ∧ snap.total_expenses = specCountAgg rows := by
  rw [get_some_ok h]
  exact aggregate_spec daysInMonth nowDay rows

/-- Witness for the amended C1 on the spec's demo store, with the concrete
values `total_spent = 6.50` and `total_expenses = 2`. -/
theorem c1_witness :
    ((aggregate 30 15 demoRows).total_spent = specSumAgg demoRows
      ∧ (aggregate 30 15 demoRows).total_expenses = specCountAgg demoRows)
  ∧ (aggregate 30 15 demoRows).total_spent = 13/2
  ∧ (aggregate 30 15 demoRows).total_expenses = 2 := by
  refine ⟨c1_totals 30 15 demoRows (aggregate 30 15 demoRows) rfl, ?_, ?_⟩
  · simp [demoRows, aggregate, dropnaAll, rowKeep, toRow, amountOf, parseAmount, parseBody,
      digitsVal, allDigits]
    norm_num
  · simp [demoRows, aggregate, dropnaAll, rowKeep, toRow, parseAmount, parseBody,
      digitsVal, allDigits]

/-- Claim C2: for every record set and every current date, the snapshot's
`daily_budget` equals `remaining_budget / max(1, days_in_month - day)` when
`remaining_budget > 0` and `0` otherwise; and on every successful read
(including the absent store) `daily_budget` is never negative and is `0`
whenever `remaining_budget ≤ 0`. -/
theorem c2_daily_budget :
    (∀ daysInMonth nowDay : Nat, ∀ rows : List RawRow, ∀ snap : Snapshot,
        get_expense_data daysInMonth nowDay (some rows) = Except.ok snap →
        snap.daily_budget =
          if snap.remaining_budget > 0 then
            snap.remaining_budget / ((max 1 (daysInMonth - nowDay) : Nat) : Rat)
          else 0)
  ∧ (∀ daysInMonth nowDay : Nat, ∀ store : Option (List RawRow), ∀ snap : Snapshot,
        get_expense_data daysInMonth nowDay store = Except.ok snap →
        0 ≤ snap.daily_budget ∧ (snap.remaining_budget ≤ 0 → snap.daily_budget = 0)) := by
  constructor
  · intro daysInMonth nowDay rows snap h
    rw [get_some_ok h]
    rfl
  · intro daysInMonth nowDay store snap h
    cases store with
    | none =>
        have hz : snap = zeroSnapshot := by
          simpa [get_expense_data] using h.symm
        subst hz
        refine ⟨le_refl 0, fun hle => ?_⟩
        exfalso
        rw [show zeroSnapshot.remaining_budget = (2000 : Rat) from rfl] at hle
        norm_num at hle
    | some rows =>
        rw [get_some_ok h]
        constructor
        · show (0 : Rat) ≤ if (aggregate daysInMonth nowDay rows).remaining_budget > 0 then
            (aggregate daysInMonth nowDay rows).remaining_budget
              / ((max 1 (daysInMonth - nowDay) : Nat) : Rat) else 0
          split
          · next hpos =>
              exact div_nonneg (le_of_lt hpos) (Nat.cast_nonneg _)
          · exact le_refl 0
        · intro hle
          show (if (aggregate daysInMonth nowDay rows).remaining_budget > 0 then
            (aggregate daysInMonth nowDay rows).remaining_budget
              / ((max 1 (daysInMonth - nowDay) : Nat) : Rat) else 0) = 0
          rw [if_neg (not_lt.mpr hle)]

/-- Witness for C2 on the demo store, September-15th-style date (30-day
month, day 15). -/
theorem c2_witness :
    ((aggregate 30 15 demoRows).daily_budget =
      if (aggregate 30 15 demoRows).remaining_budget > 0 then
        (aggregate 30 15 demoRows).remaining_budget / ((max 1 (30 - 15) : Nat) : Rat)
      else 0)
  ∧ 0 ≤ (aggregate 30 15 demoRows).daily_budget
  ∧ ((aggregate 30 15 demoRows).remaining_budget ≤ 0 →
      (aggregate 30 15 demoRows).daily_budget = 0) :=
  ⟨c2_daily_budget.1 30 15 demoRows (aggregate 30 15 demoRows) rfl,
   (c2_daily_budget.2 30 15 (some demoRows) (aggregate 30 15 demoRows) rfl).1,
   (c2_daily_budget.2 30 15 (some demoRows) (aggregate 30 15 demoRows) rfl).2⟩

/-- Claim C3: on every record set read from the store, `remaining_budget`
equals the fixed budget constant minus `total_spent`; and there is a record
set on which this value is negative. -/
theorem c3_remaining_budget :
    (∀ daysInMonth nowDay : Nat, ∀ rows : List RawRow, ∀ snap : Snapshot,
        get_expense_data daysInMonth nowDay (some rows) = Except.ok snap →
        snap.remaining_budget = BUDGET - snap.total_spent)
  ∧ (∃ snap : Snapshot, get_expense_data 30 15 (some overRows) = Except.ok snap
      ∧ snap.remaining_budget < 0) := by
  constructor
  · intro daysInMonth nowDay rows snap h
    rw [get_some_ok h]
    rfl
  · refine ⟨aggregate 30 15 overRows, rfl, ?_⟩
    have : (aggregate 30 15 overRows).remaining_budget = 2000 - 3000 := by
      show BUDGET - (aggregate 30 15 overRows).total_spent = 2000 - 3000
      have ht : (aggregate 30 15 overRows).total_spent = 3000 := by
        simp [overRows, aggregate, dropnaAll, rowKeep, toRow, amountOf, parseAmount,
          parseBody, digitsVal, allDigits]
      rw [ht]
      norm_num [BUDGET]
    rw [this]
    norm_num

/-- Witness for C3's universally quantified part on the demo store. -/
theorem c3_witness :
    (aggregate 30 15 demoRows).remaining_budget
      = BUDGET - (aggregate 30 15 demoRows).total_spent :=
  c3_remaining_budget.1 30 15 demoRows (aggregate 30 15 demoRows) rfl

/-- Claim C4: for every record set read from the store, the per-category
totals sum to exactly `total_spent`: every kept record's amount is counted in
exactly one category total. -/
theorem c4_category_totals (daysInMonth nowDay : Nat) (rows : List RawRow)
    (snap : Snapshot)
    (h : get_expense_data daysInMonth nowDay (some rows) = Except.ok snap) :
    ((snap.category_totals).map Prod.snd).sum = snap.total_spent := by
  rw [get_some_ok h]
  exact groupTotals_sum (dropnaAll rows)

/-- Witness for C4 on the demo store. -/
theorem c4_witness :
    (((aggregate 30 15 demoRows).category_totals).map Prod.snd).sum
      = (aggregate 30 15 demoRows).total_spent :=
  c4_category_totals 30 15 demoRows (aggregate 30 15 demoRows) rfl

/-- Reduction of `generate_chart` on a non-empty existing store. -/
lemma generate_chart_cons (r : RawRow) (rs : List RawRow) :
    generate_chart (some (r :: rs)) =
      if (((r :: rs).map toRow).filter chartKeep).isEmpty then
        ChartResult.notFound "No valid expenses found"
      else ChartResult.chart (sortDesc (groupTotals (((r :: rs).map toRow).filter chartKeep))) :=
  rfl

/-- Claim C5: the Chart Renderer signals "not found" when the store is
absent; signals "not found" when the store exists but all its rows have
unparseable amounts; and when at least one valid row (parseable amount,
category present) exists it returns a chart whose bar count equals the number
of distinct categories among the valid rows, with a non-empty bar list sorted
descending by category total. -/
theorem c5_chart_renderer :
    generate_chart none = ChartResult.notFound "No expenses found"
  ∧ (∀ rows : List RawRow, rows ≠ [] → (∀ r ∈ rows, parseAmount r.amount = none) →
      generate_chart (some rows) = ChartResult.notFound "No valid expenses found")
  ∧ (∀ rows : List RawRow, (∃ r ∈ rows, specKeepChart r) →
      ∃ bars, generate_chart (some rows) = ChartResult.chart bars
        ∧ bars ≠ []
        ∧ bars.length = (specCatsChart rows).length
        ∧ BarsSortedDesc bars) := by
  refine ⟨rfl, ?_, ?_⟩
  · intro rows hne hbad
    obtain ⟨r, rs, rfl⟩ : ∃ r rs, rows = r :: rs := by
      cases rows with
      | nil => exact absurd rfl hne
      | cons r rs => exact ⟨r, rs, rfl⟩
    have hnil : ((r :: rs).map toRow).filter chartKeep = [] := by
      rw [List.filter_eq_nil_iff]
      intro x hx
      rcases List.mem_map.mp hx with ⟨rr, hrr, rfl⟩
      have hb := hbad rr hrr
      simp [chartKeep, toRow, hb]
    rw [generate_chart_cons, hnil]
    rfl
  · intro rows hex
    obtain ⟨r₀, hr₀, hk₀⟩ := hex
    obtain ⟨r, rs, rfl⟩ : ∃ r rs, rows = r :: rs := by
      cases rows with
      | nil => exact absurd hr₀ (List.not_mem_nil r₀)
      | cons r rs => exact ⟨r, rs, rfl⟩
    set valid := ((r :: rs).map toRow).filter chartKeep with hvalid
    have hmem : toRow r₀ ∈ valid := by
      rw [hvalid]
      refine List.mem_filter.mpr ⟨List.mem_map_of_mem toRow hr₀, ?_⟩
      rw [chartKeep_toRow]
      exact hk₀
    have hnonempty : valid.isEmpty = false := by
      cases hv : valid with
      | nil => rw [hv] at hmem; exact absurd hmem (List.not_mem_nil _)
      | cons a as => rfl
    refine ⟨sortDesc (groupTotals valid), ?_, ?_, ?_, sorted_sortDesc _⟩
    · rw [generate_chart_cons, ← hvalid, if_neg (by simp [hnonempty])]
    · have hlen : (sortDesc (groupTotals valid)).length = ((valid.map catOf).dedup).length := by
        rw [length_sortDesc, groupTotals_length]
      have hne' : (valid.map catOf).dedup ≠ [] := by
        rw [ne_eq, List.dedup_eq_nil]
        intro hmapnil
        rw [List.map_eq_nil_iff] at hmapnil
        rw [hmapnil] at hmem
        exact absurd hmem (List.not_mem_nil _)
      intro hbarsnil
      apply hne'
      have := congrArg List.length hbarsnil
      rw [hlen] at this
      exact List.length_eq_zero.mp this
    · rw [length_sortDesc, groupTotals_length]
      unfold specCatsChart
      rw [← chart_cats_eq]

/-- Witness for C5: a store whose single row has amount `abc` yields "not
found"; the demo store yields a chart with two bars (categories `Food` and
`Transport`), non-empty and sorted descending. -/
theorem c5_witness :
    generate_chart (some badAmountRows) = ChartResult.notFound "No valid expenses found"
  ∧ (∃ bars, generate_chart (some demoRows) = ChartResult.chart bars
      ∧ bars ≠ []
      ∧ bars.length = (specCatsChart demoRows).length
      ∧ BarsSortedDesc bars) := by
  constructor
  · refine c5_chart_renderer.2.1 badAmountRows (by simp [badAmountRows]) ?_
    intro r hr
    rw [show r = (⟨"A", "abc", "Food"⟩ : RawRow) by simpa [badAmountRows] using hr]
    simp [parseAmount, parseBody, allDigits]
  · refine c5_chart_renderer.2.2 demoRows ⟨⟨"Coffee", "4.50", "Food"⟩, by simp [demoRows], ?_⟩
    simp [specKeepChart, parseAmount, parseBody, digitsVal, allDigits]

/-- Claim C10: the Aggregator excludes any stored record whose name or
category field is missing even when its amount parses (its totals range over
`specKeepAgg`), while the Chart Renderer excludes only records whose amount
or category is missing (its bars total over `specKeepChart`); on the store
holding the single line `,5,Food` the two components therefore count
different record sets: the Aggregator sees zero records while the chart draws
one bar of total 5. -/
theorem c10_component_divergence :
    (∀ daysInMonth nowDay : Nat, ∀ rows : List RawRow, ∀ snap : Snapshot,
        get_expense_data daysInMonth nowDay (some rows) = Except.ok snap →
        snap.total_spent = specSumAgg rows ∧ snap.total_expenses = specCountAgg rows)
  ∧ (∀ rows : List RawRow, ∀ bars, generate_chart (some rows) = ChartResult.chart bars →
        (bars.map Prod.snd).sum = specSumChart rows)
  ∧ ((aggregate 30 15 divergeRows).total_expenses = 0
      ∧ (aggregate 30 15 divergeRows).total_spent = 0
      ∧ generate_chart (some divergeRows) = ChartResult.chart [("Food", 5)]) := by
  refine ⟨?_, ?_, ?_, ?_, ?_⟩
  · intro daysInMonth nowDay rows snap h
    rw [get_some_ok h]
    exact aggregate_spec daysInMonth nowDay rows
  · intro rows bars h
    cases rows with
    | nil => simp [generate_chart] at h
    | cons r rs =>
        rw [generate_chart_cons] at h
        by_cases hempty : (((r :: rs).map toRow).filter chartKeep).isEmpty = true
        · rw [if_pos hempty] at h
          exact absurd h (by simp)
        · rw [if_neg hempty] at h
          rw [← (ChartResult.chart.injEq _ _).mp h]
          rw [sum_sortDesc, groupTotals_sum, chart_sum_spec]
  · simp [divergeRows, aggregate, dropnaAll, rowKeep, toRow, parseAmount, parseBody,
      digitsVal, allDigits]
  · simp [divergeRows, aggregate, dropnaAll, rowKeep, toRow, amountOf, parseAmount, parseBody,
      digitsVal, allDigits]
  · simp [divergeRows, generate_chart, chartKeep, toRow, parseAmount, parseBody, digitsVal,
      allDigits, groupTotals, catOf, amountOf, sortDesc, insertDesc]

/-- Witness for C10's quantified parts on the demo store. -/
theorem c10_witness :
    ((aggregate 30 15 demoRows).total_spent = specSumAgg demoRows
      ∧ (aggregate 30 15 demoRows).total_expenses = specCountAgg demoRows)
  ∧ (∃ bars, generate_chart (some demoRows) = ChartResult.chart bars
      ∧ (bars.map Prod.snd).sum = specSumChart demoRows) := by
  refine ⟨c10_component_divergence.1 30 15 demoRows (aggregate 30 15 demoRows) rfl, ?_⟩
  have hch : generate_chart (some demoRows)
      = ChartResult.chart [("Food", (9 : Rat)/2), ("Transport", 2)] := by
    simp [demoRows, generate_chart, chartKeep, toRow, parseAmount, parseBody, digitsVal,
      allDigits, groupTotals, catOf, amountOf, sortDesc, insertDesc]
    norm_num
  exact ⟨_, hch, c10_component_divergence.2.1 demoRows _ hch⟩

end ExpenseApp
